import Mathlib

/-!
Shallow embedding of the error/result subsystem of the `cpp-demo-project`
repository (namespace `cpp_features::exceptions`): the severity enumeration,
the diagnostic-exception hierarchy (`BaseException` and its three
refinements), the two `Result<T>` sum-type variants, and the
`ExceptionHandler` safe-execution helpers.  Every definition is translated
from the C++ sources (`include/exceptions/custom_exception.hpp`,
`include/exceptions/result.hpp`, `include/exceptions/exception_handler.hpp`,
`src/exceptions/custom_exception.cpp`, `src/exceptions/exception_handler.cpp`).
C++ exception propagation is modelled with `Except`; effectful callables are
modelled by explicit state passing; `double` context values are modelled as
rationals (no floating-point arithmetic is performed on them anywhere in the
modelled code paths).
-/

namespace cpp_features.exceptions

/-- The severity enumeration of `custom_exception.hpp` lines 39-46:
`kTrace = 0, kDebug = 1, kInfo = 2, kWarning = 3, kError = 4, kFatal = 5`. -/
inductive ErrorSeverity where
  | kTrace
  | kDebug
  | kInfo
  | kWarning
  | kError
  | kFatal
deriving DecidableEq, Repr

/-- Model of `SeverityToString` as defined in `src/exceptions/custom_exception.cpp`
lines 23-31: a `switch` with cases for `kInfo`, `kWarning`, `kError` and
`kCritical`, and a `default` returning `"UNKNOWN"`.  The case label
`ErrorSeverity::kCritical` names an enumerator that does not exist in the
header's `ErrorSeverity` enumeration, so no value of the declared enumeration
ever reaches the `"CRITICAL"` branch; `kTrace`, `kDebug` and `kFatal` all fall
through to the `default` branch. -/
def SeverityToString : ErrorSeverity → String
  | ErrorSeverity.kInfo => "INFO"
  | ErrorSeverity.kWarning => "WARNING"
  | ErrorSeverity.kError => "ERROR"
  | _ => "UNKNOWN"

/-- Model of `std::source_location`: the fields observable through
`file_name()`, `line()`, `column()` and `function_name()`. -/
structure SourceLocation where
  file_name : String
  line : Nat
  column : Nat
  function_name : String
deriving DecidableEq, Repr

/-- Model of `BaseException` (`custom_exception.hpp` lines 71-141): the stored
`std::runtime_error` message (observable through `what()`), the severity and
the captured source location.  The C++ object is immutable after
construction. -/
structure BaseException where
  message : String
  severity : ErrorSeverity
  location : SourceLocation
deriving DecidableEq, Repr

/-- The `BaseException` constructor (`custom_exception.hpp` lines 80-82):
stores the message, the severity and the call-site location.  In C++ the
severity defaults to `kError` and the location defaults to
`std::source_location::current()`; both are passed explicitly here. -/
def BaseException.construct (message : String) (severity : ErrorSeverity)
    (location : SourceLocation) : BaseException :=
  ⟨message, severity, location⟩

/-- Model of `BaseException::GetFormattedMessage` (`custom_exception.hpp` lines
132-135): `std::format` of file, line, function and message. -/
def BaseException.GetFormattedMessage (e : BaseException) : String :=
  e.location.file_name ++ ":" ++ toString e.location.line ++ " - "
    ++ e.location.function_name ++ ": " ++ e.message

/-- A thrown C++ object as seen by the ordered catch clauses of
`ExceptionHandler::SafeExecute`: an exception of the `BaseException` family
(observed through its base interface), some other `std::exception` (observed
through its `what()` string), or anything else. -/
inductive Thrown where
  | base : BaseException → Thrown
  | std : String → Thrown
  | unknown : Thrown
deriving DecidableEq, Repr

/-- The defaulted `noexcept` copy constructor of `BaseException`
(`custom_exception.hpp` line 87): a memberwise copy of the
`std::runtime_error` (whose copy is non-failing, the message being
reference-counted), the severity scalar and the location record. -/
def BaseException.copy (e : BaseException) : BaseException :=
  ⟨e.message, e.severity, e.location⟩

/-- A tight loop of `n` successive copies of a `BaseException`. -/
def BaseException.copyLoop : Nat → BaseException → BaseException
  | 0, e => e
  | Nat.succ n, e => BaseException.copyLoop n (BaseException.copy e)

/-- The copy constructor viewed through the exception channel: being a
defaulted `noexcept` memberwise copy whose every member copy is non-failing,
it never reaches the error arm.  This is the property the `static_assert` at
`custom_exception.hpp` lines 144-145 checks
(`std::is_nothrow_copy_constructible_v<BaseException>`). -/
def BaseException.copyChecked (e : BaseException) : Except Thrown BaseException :=
  Except.ok (BaseException.copy e)

/-- Model of `ValidationException` (`custom_exception.hpp` lines 161-185):
a `BaseException` refined with an optional field name. -/
structure ValidationException extends BaseException where
  field_name : Option String
deriving DecidableEq, Repr

/-- The `ValidationException` constructor (lines 170-173): forwards the
message to the base with severity `kError` and stores the field name. -/
def ValidationException.construct (message : String) (field_name : Option String)
    (location : SourceLocation) : ValidationException :=
  ⟨⟨message, ErrorSeverity.kError, location⟩, field_name⟩

/-- Model of `ValidationException::GetFieldName` (lines 179-181). -/
def ValidationException.GetFieldName (v : ValidationException) : Option String :=
  v.field_name

/-- The defaulted copy of `ValidationException`: base copy plus the trivially
copyable optional field name. -/
def ValidationException.copy (v : ValidationException) : ValidationException :=
  ⟨BaseException.copy v.toBaseException, v.field_name⟩

/-- Model of `ResourceException` (`custom_exception.hpp` lines 205-229):
a `BaseException` refined with an optional resource name. -/
structure ResourceException extends BaseException where
  resource_name : Option String
deriving DecidableEq, Repr

/-- The `ResourceException` constructor (lines 214-217). -/
def ResourceException.construct (message : String) (resource_name : Option String)
    (location : SourceLocation) : ResourceException :=
  ⟨⟨message, ErrorSeverity.kError, location⟩, resource_name⟩

/-- Model of `ResourceException::GetResourceName` (lines 223-225). -/
def ResourceException.GetResourceName (r : ResourceException) : Option String :=
  r.resource_name

/-- The defaulted copy of `ResourceException`. -/
def ResourceException.copy (r : ResourceException) : ResourceException :=
  ⟨BaseException.copy r.toBaseException, r.resource_name⟩

/-- Model of `CalculationException` (`custom_exception.hpp` lines 249-270):
a `BaseException` refined with the offending input value (a C++ `double`,
modelled as a rational; it is only stored and read back, never computed
with). -/
structure CalculationException extends BaseException where
  input_value : ℚ
deriving DecidableEq, Repr

/-- The `CalculationException` constructor (lines 258-260). -/
def CalculationException.construct (message : String) (input_value : ℚ)
    (location : SourceLocation) : CalculationException :=
  ⟨⟨message, ErrorSeverity.kError, location⟩, input_value⟩

/-- Model of `CalculationException::GetInputValue` (line 266). -/
def CalculationException.GetInputValue (c : CalculationException) : ℚ :=
  c.input_value

/-- The defaulted copy of `CalculationException`. -/
def CalculationException.copy (c : CalculationException) : CalculationException :=
  ⟨BaseException.copy c.toBaseException, c.input_value⟩

/-- The `Result<T>` sum type of `include/exceptions/result.hpp` lines 50-192:
a `std::variant<T, BaseException>` populated by exactly one of the two
explicit constructors, `Result(T value)` (the success arm) or
`Result(BaseException exception)` (the failure arm). -/
inductive Result (T : Type) where
  | Success : T → Result T
  | Failure : BaseException → Result T
deriving DecidableEq, Repr

/-- Model of `Result::HasValue` (`result.hpp` line 94):
`std::holds_alternative<T>(data_)`. -/
def Result.HasValue {T : Type} : Result T → Bool
  | Result.Success _ => true
  | Result.Failure _ => false

/-- The const overload of `Result::GetValue` (`result.hpp` lines 101-106):
returns the stored value on the success arm and otherwise throws the stored
`BaseException` (`throw std::get<BaseException>(data_)`; the thrown object is
value-equal to the stored one). -/
def Result.GetValue {T : Type} : Result T → Except BaseException T
  | Result.Success v => Except.ok v
  | Result.Failure e => Except.error e

/-- The non-const overload of `Result::GetValue` (`result.hpp` lines
113-118): on the failure arm it throws an explicitly constructed copy,
`throw BaseException{std::get<BaseException>(data_)}`. -/
def Result.GetValueMut {T : Type} : Result T → Except BaseException T
  | Result.Success v => Except.ok v
  | Result.Failure e => Except.error (BaseException.copy e)

/-- The `std::source_location::current()` capture site of the fresh
diagnostic constructed by `Result::GetException` at `result.hpp` line 129. -/
def resultHppNoExceptionLoc : SourceLocation :=
  ⟨"result.hpp", 129, 0, "GetException"⟩

/-- The fresh diagnostic thrown by `Result::GetException` on a success arm:
`BaseException{"No exception in successful result"}`, with the constructor's
default severity `kError` and the capture site in `result.hpp`. -/
def resultHppNoExceptionDiag : BaseException :=
  ⟨"No exception in successful result", ErrorSeverity.kError, resultHppNoExceptionLoc⟩

/-- Model of `Result::GetException` (`result.hpp` lines 125-130): returns the stored
exception on the failure arm and otherwise throws the fresh
"No exception in successful result" diagnostic. -/
def Result.GetException {T : Type} : Result T → Except BaseException BaseException
  | Result.Success _ => Except.error resultHppNoExceptionDiag
  | Result.Failure e => Except.ok e

/-- Model of `Result::Visit` (`result.hpp` lines 138-141): `std::visit` over the two
variant alternatives, modelled by one handler per alternative. -/
def Result.Visit {T R : Type} (r : Result T) (fv : T → R) (fe : BaseException → R) : R :=
  match r with
  | Result.Success v => fv v
  | Result.Failure e => fe e

/-- Model of `Result::Map` (`result.hpp` lines 160-170): a `Visit` whose visitor
returns `Result<U>{func(value)}` on the `T` alternative and `Result<U>{value}`
(the failure constructor applied to the stored exception, unchanged) on the
`BaseException` alternative. -/
def Result.Map {T U : Type} (r : Result T) (f : T → U) : Result U :=
  r.Visit (fun value => Result.Success (f value)) (fun value => Result.Failure value)

/-- Model of `Result::Then` (`result.hpp` lines 178-188): a `Visit` whose visitor
returns `func(value)` on the `T` alternative and `ResultType{value}` on the
`BaseException` alternative. -/
def Result.Then {T U : Type} (r : Result T) (f : T → Result U) : Result U :=
  r.Visit (fun value => f value) (fun value => Result.Failure value)

/-- Model of `Result::Visit` for effectful callables (C++ callables may carry state):
the visitor runs on exactly the alternative the variant holds, threading the
callable's state `σ`. -/
def Result.VisitS {T R σ : Type} (r : Result T) (fv : T → σ → R × σ)
    (fe : BaseException → σ → R × σ) (s : σ) : R × σ :=
  match r with
  | Result.Success v => fv v s
  | Result.Failure e => fe e s

/-- Model of `Result::Map` for an effectful callable: on the success arm the callable
runs exactly once on the payload; on the failure arm the lambda's else branch
constructs `Result<U>{value}` from the stored exception without running the
callable (its state is returned untouched). -/
def Result.MapS {T U σ : Type} (r : Result T) (f : T → σ → U × σ) (s : σ) :
    Result U × σ :=
  r.VisitS (fun value s => ((Result.Success (f value s).1 : Result U), (f value s).2))
    (fun value s => ((Result.Failure value : Result U), s)) s

/-- Model of `Result::Then` for an effectful callable: on the success arm the callable
runs exactly once and its `Result<U>` is returned directly (flattening); on
the failure arm `ResultType{value}` is constructed without running the
callable. -/
def Result.ThenS {T U σ : Type} (r : Result T) (f : T → σ → Result U × σ) (s : σ) :
    Result U × σ :=
  r.VisitS (fun value s => f value s)
    (fun value s => ((Result.Failure value : Result U), s)) s

/-- A chain of combinator calls `r.Map(f1).Map(f2). … .Then(g)` of arbitrary
length and arbitrary intermediate types, each step carrying an effectful
callable with state `σ` (the state records the callable's invocations). -/
inductive ChainS (σ : Type) : Type → Type → Type 1 where
  | done : ∀ {T : Type}, ChainS σ T T
  | mapStep : ∀ {T U V : Type}, (T → σ → U × σ) → ChainS σ U V → ChainS σ T V
  | thenStep : ∀ {T U V : Type}, (T → σ → Result U × σ) → ChainS σ U V → ChainS σ T V

/-- Runs a combinator chain on a `Result`, threading the callables' state:
each step is the corresponding source combinator (`Result::Map` /
`Result::Then`). -/
def ChainS.run {σ : Type} : {T V : Type} → ChainS σ T V → Result T → σ → Result V × σ
  | _, _, ChainS.done, r, s => (r, s)
  | _, _, ChainS.mapStep f rest, r, s =>
      ChainS.run rest (Result.MapS r f s).1 (Result.MapS r f s).2
  | _, _, ChainS.thenStep f rest, r, s =>
      ChainS.run rest (Result.ThenS r f s).1 (Result.ThenS r f s).2

/-- Constructing a failed `Result<T>` from a `ValidationException`: the
by-value `BaseException` parameter of the failure constructor
(`result.hpp` line 63) slices the refinement to its base subobject. -/
def Result.FromValidation {T : Type} (v : ValidationException) : Result T :=
  Result.Failure v.toBaseException

/-- Constructing a failed `Result<T>` from a `ResourceException` (sliced by
the by-value `BaseException` parameter). -/
def Result.FromResource {T : Type} (r : ResourceException) : Result T :=
  Result.Failure r.toBaseException

/-- Constructing a failed `Result<T>` from a `CalculationException` (sliced
by the by-value `BaseException` parameter). -/
def Result.FromCalculation {T : Type} (c : CalculationException) : Result T :=
  Result.Failure c.toBaseException

/-- The line printed by `ExceptionHandler::LogException`
(`src/exceptions/exception_handler.cpp` lines 15-18). -/
def LogExceptionLine (e : BaseException) : String :=
  "Custom Exception [" ++ SeverityToString e.severity ++ "]: "
    ++ e.GetFormattedMessage

/-- The line printed by `ExceptionHandler::LogStandardException` (lines
20-22). -/
def LogStandardExceptionLine (what : String) : String :=
  "Standard Exception: " ++ what

/-- The line printed by `ExceptionHandler::LogUnknownException` (lines
24-26). -/
def LogUnknownExceptionLine : String :=
  "Unknown Exception: An unhandled exception occurred"

/-- Model of `ExceptionHandler::SafeExecute` (`exception_handler.hpp` lines 52-67):
runs the operation (modelled by its outcome, either completion or a thrown
object) inside `try`; returns `true` when it completes, and otherwise
dispatches through the ordered catch clauses — `const BaseException &` first,
then `const std::exception &`, then `catch (...)` — logging exactly one line
and returning `false`.  The function itself is `noexcept`: its return type
here has no exception channel. -/
def SafeExecute (op : Except Thrown Unit) : Bool × List String :=
  match op with
  | Except.ok _ => (true, [])
  | Except.error (Thrown.base e) => (false, [LogExceptionLine e])
  | Except.error (Thrown.std what) => (false, [LogStandardExceptionLine what])
  | Except.error Thrown.unknown => (false, [LogUnknownExceptionLine])

/-- Model of `ExceptionHandler::SafeExecuteWithDefault` (`exception_handler.hpp` lines
81-89): returns the operation's result, or the default value under
`catch (...)`.  No logging call appears in its body, so its log output
(second component) is always empty. -/
def SafeExecuteWithDefault {U : Type} (op : Except Thrown U) (default_value : U) :
    U × List String :=
  match op with
  | Except.ok v => (v, [])
  | Except.error _ => (default_value, [])

/-- The `Result<T>` sum type embedded in `custom_exception.hpp` lines
396-538 — the second, near-identical definition of `Result` in the
repository. -/
inductive ResultCE (T : Type) where
  | Success : T → ResultCE T
  | Failure : BaseException → ResultCE T
deriving DecidableEq, Repr

/-- Model of `Result::HasValue` of the `custom_exception.hpp` variant (line 440). -/
def ResultCE.HasValue {T : Type} : ResultCE T → Bool
  | ResultCE.Success _ => true
  | ResultCE.Failure _ => false

/-- The const `Result::GetValue` of the `custom_exception.hpp` variant
(lines 447-452): `throw std::get<BaseException>(data_)` on the failure
arm. -/
def ResultCE.GetValue {T : Type} : ResultCE T → Except BaseException T
  | ResultCE.Success v => Except.ok v
  | ResultCE.Failure e => Except.error e

/-- The non-const `Result::GetValue` of the `custom_exception.hpp` variant
(lines 459-464): here too the stored exception is thrown directly,
`throw std::get<BaseException>(data_)` — no explicitly constructed copy. -/
def ResultCE.GetValueMut {T : Type} : ResultCE T → Except BaseException T
  | ResultCE.Success v => Except.ok v
  | ResultCE.Failure e => Except.error e

/-- The `std::source_location::current()` capture site of the fresh
diagnostic constructed by the `custom_exception.hpp` variant's
`GetException` at line 475. -/
def ceHppNoExceptionLoc : SourceLocation :=
  ⟨"custom_exception.hpp", 475, 0, "GetException"⟩

/-- The fresh diagnostic thrown by the `custom_exception.hpp` variant's
`GetException` on a success arm. -/
def ceHppNoExceptionDiag : BaseException :=
  ⟨"No exception in successful result", ErrorSeverity.kError, ceHppNoExceptionLoc⟩

/-- Model of `Result::GetException` of the `custom_exception.hpp` variant (lines
471-476). -/
def ResultCE.GetException {T : Type} : ResultCE T → Except BaseException BaseException
  | ResultCE.Success _ => Except.error ceHppNoExceptionDiag
  | ResultCE.Failure e => Except.ok e

/-- Model of `Result::Visit` of the `custom_exception.hpp` variant (lines 484-487). -/
def ResultCE.Visit {T R : Type} (r : ResultCE T) (fv : T → R) (fe : BaseException → R) : R :=
  match r with
  | ResultCE.Success v => fv v
  | ResultCE.Failure e => fe e

/-- Model of `Result::Map` of the `custom_exception.hpp` variant (lines 506-516). -/
def ResultCE.Map {T U : Type} (r : ResultCE T) (f : T → U) : ResultCE U :=
  r.Visit (fun value => ResultCE.Success (f value)) (fun value => ResultCE.Failure value)

/-- Model of `Result::Then` of the `custom_exception.hpp` variant (lines 524-534). -/
def ResultCE.Then {T U : Type} (r : ResultCE T) (f : T → ResultCE U) : ResultCE U :=
  r.Visit (fun value => f value) (fun value => ResultCE.Failure value)

/-- The arm-preserving correspondence between the two `Result` variants
(both store `std::variant<T, BaseException>` populated the same way). -/
def Result.toCE {T : Type} : Result T → ResultCE T
  | Result.Success v => ResultCE.Success v
  | Result.Failure e => ResultCE.Failure e

/-- True exactly on the error arm of an `Except` (the call would raise). -/
def isErrorB {ε α : Type} : Except ε α → Bool
  | Except.error _ => true
  | Except.ok _ => false

/-- True exactly on the ok arm of an `Except` (the call completed). -/
def isOkB {ε α : Type} : Except ε α → Bool
  | Except.ok _ => true
  | Except.error _ => false

/-- Claim C1: for every `Result<T>` constructed as `Failure(e)` and every
chain of `Map`/`Then` combinator calls of any length, the chain returns
`Failure(e)` with every callable's state untouched (so, the state being an
arbitrary invocation record, none of the supplied functions is ever invoked),
and `GetException()` of the final result yields the original diagnostic `e`
itself — same message, severity and origin. -/
theorem short_circuit_chain : ∀ (σ T V : Type) (c : ChainS σ T V)
    (e : BaseException) (s : σ),
    ChainS.run c (Result.Failure e) s = ((Result.Failure e : Result V), s) ∧
    Result.GetException (ChainS.run c (Result.Failure e) s).1 = Except.ok e := by
  intro σ T V c e s
  have h : ChainS.run c (Result.Failure e) s = ((Result.Failure e : Result V), s) := by
    induction c with
    | done => rfl
    | mapStep f rest ih => simpa [ChainS.run, Result.MapS, Result.VisitS] using ih
    | thenStep f rest ih => simpa [ChainS.run, Result.ThenS, Result.VisitS] using ih
  rw [h]
  exact ⟨rfl, rfl⟩

/-- Claim C2: copying a diagnostic exception never fails: the copy of a
`BaseException` (and of each refinement) is the identical value, iterating
the copy any number of times (covering the spec's tight loop of at least
ten thousand copies) still returns the original value, and the copy seen
through the exception channel always lands on the ok arm — the property the
`static_assert` lines of `custom_exception.hpp` check at compile time. -/
theorem copy_never_fails : ∀ (e : BaseException) (n : Nat) (v : ValidationException)
    (r : ResourceException) (c : CalculationException),
    BaseException.copy e = e ∧
    BaseException.copyLoop n e = e ∧
    BaseException.copyChecked e = Except.ok e ∧
    ValidationException.copy v = v ∧
    ResourceException.copy r = r ∧
    CalculationException.copy c = c := by
  intro e n v r c
  have hLoop : ∀ (m : Nat) (x : BaseException), BaseException.copyLoop m x = x := by
    intro m
    induction m with
    | zero => intro x; rfl
    | succ k ih => intro x; exact ih x
  exact ⟨rfl, hLoop n e, rfl, rfl, rfl, rfl⟩

/-- Claim C3: wrong-arm access fails loudly: `GetValue()` on the failure arm
raises the stored diagnostic `e` (never an ok/sentinel outcome), and
`GetException()` on the success arm raises a fresh diagnostic whose message
is "No exception in successful result" with the constructor's default
severity `kError`. -/
theorem wrong_arm_access_raises : ∀ (T : Type) (e : BaseException) (v : T),
    Result.GetValue (Result.Failure e : Result T) = Except.error e ∧
    Result.GetValueMut (Result.Failure e : Result T) = Except.error e ∧
    Result.GetException (Result.Success v) = Except.error resultHppNoExceptionDiag ∧
    resultHppNoExceptionDiag.message = "No exception in successful result" ∧
    resultHppNoExceptionDiag.severity = ErrorSeverity.kError := by
  intro T e v
  exact ⟨rfl, rfl, rfl, rfl, rfl⟩

/-- Claim C4 (evaluation at the failing inputs): the `SeverityToString` of
`src/exceptions/custom_exception.cpp` maps the enumerators `kTrace`, `kDebug`
and `kFatal` all to the same string "UNKNOWN" — the names returned for the
six enumerators are not pairwise distinct, contradicting the claim. -/
theorem severityToString_collapses :
    SeverityToString ErrorSeverity.kTrace = "UNKNOWN" ∧
    SeverityToString ErrorSeverity.kDebug = "UNKNOWN" ∧
    SeverityToString ErrorSeverity.kFatal = "UNKNOWN" ∧
    SeverityToString ErrorSeverity.kDebug = SeverityToString ErrorSeverity.kFatal :=
  ⟨rfl, rfl, rfl, rfl⟩

/-- Claim C5: exclusivity invariant: for every constructed `Result<T>`,
`HasValue()` is true exactly when `GetException()` would raise, false exactly
when `GetValue()` would raise, and the two accessors never both raise. -/
theorem result_exclusivity : ∀ (T : Type) (r : Result T),
    r.HasValue = isErrorB r.GetException ∧
    (!r.HasValue) = isErrorB r.GetValue ∧
    (isErrorB r.GetValue && isErrorB r.GetException) = false := by
  intro T r
  cases r with
  | Success v => exact ⟨rfl, rfl, rfl⟩
  | Failure e => exact ⟨rfl, rfl, rfl⟩

/-- Claim C6: success-arm laws: `Success(v).Map(f) = Success(f(v))` (so in
particular `Map(id)` is the identity), `Success(v).Then(x => Success(f(x))) =
Success(f(v))`, and on a success arm the effectful `Map`/`Then` run their
callable exactly once on the payload (an invocation counter advances by
exactly one). -/
theorem success_arm_laws : ∀ (T U : Type) (v : T) (f : T → U) (s : Nat),
    (Result.Success v).Map f = Result.Success (f v) ∧
    (Result.Success v).Map id = Result.Success v ∧
    (Result.Success v).Then (fun x => Result.Success (f x)) = Result.Success (f v) ∧
    Result.MapS (Result.Success v) (fun x n => (f x, n + 1)) s
      = (Result.Success (f v), s + 1) ∧
    Result.ThenS (Result.Success v) (fun x n => (Result.Success (f x), n + 1)) s
      = (Result.Success (f v), s + 1) := by
  intro T U v f s
  exact ⟨rfl, rfl, rfl, rfl, rfl⟩

/-- Claim C7: `SafeExecute` returns `true` with no log line when the
operation completes; on any raised failure it returns `false` and logs
exactly one line, classified three ways: a `BaseException` with its severity
name (per the repository's `SeverityToString`) and formatted message, a
standard exception with the description it provides, and anything else with
the generic unknown-failure notice.  Its result type carries no exception
channel: it never propagates a failure outward. -/
theorem safeExecute_spec : ∀ (e : BaseException) (what : String)
    (op : Except Thrown Unit),
    SafeExecute (Except.ok ()) = (true, []) ∧
    SafeExecute (Except.error (Thrown.base e)) =
      (false, ["Custom Exception [" ++ SeverityToString e.severity ++ "]: "
        ++ e.GetFormattedMessage]) ∧
    SafeExecute (Except.error (Thrown.std what)) =
      (false, ["Standard Exception: " ++ what]) ∧
    SafeExecute (Except.error Thrown.unknown) =
      (false, ["Unknown Exception: An unhandled exception occurred"]) ∧
    (SafeExecute op).1 = isOkB op ∧
    (SafeExecute op).2.length = cond (SafeExecute op).1 0 1 := by
  intro e what op
  refine ⟨rfl, rfl, rfl, rfl, ?_, ?_⟩ <;>
    cases op with
    | ok u => rfl
    | error t => cases t <;> rfl

/-- Claim C8: `SafeExecuteWithDefault` returns the operation's result when it
completes, returns the fallback on any raised failure — in particular a
raised `CalculationException` with fallback `-1` yields `-1` — and performs
no logging at all. -/
theorem safeExecuteWithDefault_spec : ∀ (U : Type) (v d : U) (t : Thrown)
    (loc : SourceLocation),
    SafeExecuteWithDefault (Except.ok v) d = (v, []) ∧
    SafeExecuteWithDefault (Except.error t) d = (d, []) ∧
    SafeExecuteWithDefault
      (Except.error (Thrown.base
        (CalculationException.construct "Division by zero" 0 loc).toBaseException)
        : Except Thrown ℚ) (-1)
      = (-1, []) := by
  intro U v d t loc
  exact ⟨rfl, rfl, rfl⟩

/-- Claim C9: constructing a `Result<T>` failure arm from a refined
diagnostic slices it to its base subobject: `GetException()` observes the
base value (message, severity and origin preserved), while two refinements
differing only in their extra field — or even of different dynamic kinds but
equal base — produce equal `Result` values, so the extra field and the kind
are unrecoverable from the `Result`. -/
theorem failure_slices_to_base : ∀ (T : Type) (b : BaseException)
    (f1 f2 rn : Option String) (iv : ℚ),
    Result.GetException (Result.FromValidation (⟨b, f1⟩ : ValidationException)
      : Result T) = Except.ok b ∧
    (Result.FromValidation (⟨b, f1⟩ : ValidationException) : Result T)
      = Result.FromValidation (⟨b, f2⟩ : ValidationException) ∧
    (Result.FromValidation (⟨b, f1⟩ : ValidationException) : Result T)
      = Result.FromResource (⟨b, rn⟩ : ResourceException) ∧
    (Result.FromResource (⟨b, rn⟩ : ResourceException) : Result T)
      = Result.FromCalculation (⟨b, iv⟩ : CalculationException) := by
  intro T b f1 f2 rn iv
  exact ⟨rfl, rfl, rfl, rfl⟩

/-- Claim C10 (counterexample): the two `Result` definitions are not fully
behaviorally equivalent: calling `GetException()` on the success arm
`Success(0)` raises, in each variant, a fresh diagnostic captured at that
variant's own source site, and the two raised diagnostics are not value-equal
(their origins name different files). -/
theorem result_variants_not_identical :
    Result.GetException (Result.Success (0 : Int)) = Except.error resultHppNoExceptionDiag ∧
    ResultCE.GetException (ResultCE.Success (0 : Int)) = Except.error ceHppNoExceptionDiag ∧
    resultHppNoExceptionDiag ≠ ceHppNoExceptionDiag ∧
    resultHppNoExceptionDiag.location.file_name ≠ ceHppNoExceptionDiag.location.file_name := by
  refine ⟨rfl, rfl, ?_, ?_⟩ <;> decide

/-- Claim C10 (amended): under the arm-preserving correspondence the two
`Result` variants agree on `HasValue`, both `GetValue` overloads (including
the non-const one, where the explicitly constructed copy equals the stored
exception), `Visit`, `Map`, `Then`, and `GetException` on the failure arm;
on the success arm each variant's `GetException` raises a fresh diagnostic
and the two fresh diagnostics agree in message and severity (their origins
are each variant's own capture site). -/
theorem result_variants_equiv_amended : ∀ (T U R : Type) (r : Result T)
    (f : T → U) (g : T → Result U) (fv : T → R) (fe : BaseException → R)
    (v : T) (e : BaseException),
    (Result.toCE r).HasValue = r.HasValue ∧
    (Result.toCE r).GetValue = r.GetValue ∧
    (Result.toCE r).GetValueMut = r.GetValueMut ∧
    (Result.toCE r).Visit fv fe = r.Visit fv fe ∧
    Result.toCE (r.Map f) = (Result.toCE r).Map f ∧
    Result.toCE (r.Then g) = (Result.toCE r).Then (fun x => Result.toCE (g x)) ∧
    ResultCE.GetException (Result.toCE (Result.Failure e : Result T))
      = Result.GetException (Result.Failure e : Result T) ∧
    ResultCE.GetException (Result.toCE (Result.Success v)) = Except.error ceHppNoExceptionDiag ∧
    Result.GetException (Result.Success v) = Except.error resultHppNoExceptionDiag ∧
    ceHppNoExceptionDiag.message = resultHppNoExceptionDiag.message ∧
    ceHppNoExceptionDiag.severity = resultHppNoExceptionDiag.severity := by
  intro T U R r f g fv fe v e
  cases r with
  | Success w => exact ⟨rfl, rfl, rfl, rfl, rfl, rfl, rfl, rfl, rfl, rfl, rfl⟩
  | Failure x => exact ⟨rfl, rfl, rfl, rfl, rfl, rfl, rfl, rfl, rfl, rfl, rfl⟩

end cpp_features.exceptions
